import Mathlib

/-!
Verification of the CasperDash useDApp wallet-connector layer.

The definitions below are a shallow embedding of the TypeScript sources:
the connector classes (`CasperLedgerConnector` in connectors/ledger,
`CasperWalletConnector` in connectors/casperWallet), the account actions
(`disconnect`, `setLedgerAccountIndex`, `getLedgerPublicKey`) and the
`useSign` hook's parameter validation.  External SDK behaviour
(extension provider, Ledger transport, casper-js-sdk) is parametrised:
each embedded operation takes the outcomes of its awaited SDK calls as
explicit arguments, and returns its JS result (an `Except` for
throw/return) together with the mutated state and, where relevant, the
list of SDK calls it issued and the list of errors it logged via
`console.error`.
-/

namespace UseDApp

/-- Errors thrown by the embedded code.  `connectorNotLedger` embeds
`ConnectorNotLedgerError`, `connectorNotFound` embeds
`ConnectorNotFoundError`, `typeError` embeds a runtime `TypeError`
(such as calling a method on `undefined`), and `jsError` embeds a plain
`new Error(message)`. -/
inductive JsError where
  | connectorNotLedger
  | connectorNotFound
  | typeError (msg : String)
  | jsError (msg : String)
  deriving DecidableEq, Repr

/-- JS `a || b` on a possibly-undefined string: `undefined` and the
empty string are falsy, any other string is truthy. -/
def jsOrString (a : Option String) (b : String) : String :=
  match a with
  | none => b
  | some s => if s = "" then b else s

/-- JS truthiness of a possibly-undefined string. -/
def jsTruthyString (a : Option String) : Bool :=
  match a with
  | none => false
  | some s => s != ""

/-- Lowercase hex digit, as produced by `Buffer.toString` with the
hex encoding. -/
def hexDigit (n : Nat) : Char :=
  if n < 10 then Char.ofNat (48 + n) else Char.ofNat (87 + n)

/-- Hex encoding of one byte (two lowercase digits). -/
def byteToHex (b : Nat) : String :=
  String.mk [hexDigit (b / 16 % 16), hexDigit (b % 16)]

/-- Buffer.toString with the hex encoding: concatenation of the
two-digit hex codes of the bytes. -/
def bytesToHex (bs : List Nat) : String :=
  String.join (bs.map byteToHex)

/-- Modelled from the spec: `AlgoEnum.SECP256K1`, the secp256k1
algorithm prefix of Casper public-key hex strings.  The enums module is
not under src/; the claims only use this as a distinguished constant. -/
def AlgoEnum.SECP256K1 : String := "02"

/-- Modelled from the spec: `CONNECT_ERROR_MESSAGE` from ../utils,
which is not under src/; the claims only use it as a distinguished
error message. -/
def CONNECT_ERROR_MESSAGE : String := "Please connect your Casper Ledger"

/-- Modelled from the spec: `getLedgerError` from ../utils (not under
src/) translates a Ledger SDK error into a user-facing message.  The
claims only require that an error in produces an error out, so it is
embedded as the identity on the message. -/
def getLedgerError (msg : String) : String := msg

/-- Names of the external SDK calls a connector operation awaits; an
operation's trace is the list of these it issued, in order. -/
inductive SdkCall where
  | getProviderQuery
  | getEventProviderQuery
  | addListener (eventName : String)
  | removeListener (eventName : String)
  | requestConnection
  | disconnectFromSite
  | providerSignCall
  | providerSignMessage
  | transportCreate
  | appSign
  | appSignMessage
  | appGetAddressAndPubKey
  | transportClose
  deriving DecidableEq, Repr

/-- Instance state of `CasperLedgerConnector` (connectors/ledger): the
fields the class stores on `this`.  `transport` and `casperApp` are
modelled as the numeric handle of the USB transport
(`casperApp = new CasperApp(transport)` wraps the same handle). -/
structure CasperLedgerConnector where
  accountIndex : Option String
  transport : Option Nat
  casperApp : Option Nat
  deriving DecidableEq, Repr

/-- A freshly constructed `CasperLedgerConnector`: the constructor sets
none of `accountIndex`, `transport`, `casperApp`. -/
def CasperLedgerConnector.init : CasperLedgerConnector :=
  { accountIndex := none, transport := none, casperApp := none }

/-- Embeds `CasperLedgerConnector.setAccountIndex`:
`this.accountIndex = index`. -/
def CasperLedgerConnector.setAccountIndex
    (s : CasperLedgerConnector) (index : String) : CasperLedgerConnector :=
  { s with accountIndex := some index }

/-- Embeds `CasperLedgerConnector.getAccountIndex`:
`return this.accountIndex || '0'`.  The TS return type is
`string | undefined` but the expression always yields a string. -/
def CasperLedgerConnector.getAccountIndex
    (s : CasperLedgerConnector) : Option String :=
  some (jsOrString s.accountIndex "0")

/-- Embeds `CasperLedgerConnector.connect`: awaits
`TransportWebUSB.create` (outcome `createResult`), stores the transport
and a `CasperApp` wrapping it on the instance, registers the disconnect
handler; on failure throws `Error(getLedgerError(error))`. -/
def CasperLedgerConnector.connect
    (s : CasperLedgerConnector) (createResult : Except String Nat) :
    Except String Unit × CasperLedgerConnector × List SdkCall :=
  match createResult with
  | Except.ok t =>
      (Except.ok (), { s with transport := some t, casperApp := some t },
        [SdkCall.transportCreate])
  | Except.error e =>
      (Except.error (getLedgerError e), s, [SdkCall.transportCreate])

/-- Response of `casperApp.getAddressAndPubKey`: an optional error
message and the public-key `Buffer`, which may be absent
(`undefined`). -/
structure AddressPubKeyResponse where
  errorMessage : Option String
  publicKey : Option (List Nat)
  deriving DecidableEq, Repr

/-- Embeds `CasperLedgerConnector.getPublicKey`: `getProvider` runs
`connect` (outcome `createResult`); then `getAddressAndPubKey` is
awaited (outcome `deviceResult`); a truthy `errorMessage` other than
the literal text No errors throws inside the try, the catch closes the
transport and throws `getLedgerError`; a falsy (`undefined`)
`publicKey` throws `CONNECT_ERROR_MESSAGE`; otherwise the result is
the secp256k1 prefix concatenated with the hex of the buffer.  Note the
falsiness check `!publicKey` does not fire on an empty buffer, which is
a truthy object in JS. -/
def CasperLedgerConnector.getPublicKey
    (s : CasperLedgerConnector) (createResult : Except String Nat)
    (deviceResult : Except String AddressPubKeyResponse) :
    Except String String × CasperLedgerConnector × List SdkCall :=
  match createResult with
  | Except.error e =>
      (Except.error (getLedgerError e), s, [SdkCall.transportCreate])
  | Except.ok t =>
      match deviceResult with
      | Except.error e =>
          (Except.error (getLedgerError e),
            { s with transport := some t, casperApp := some t },
            [SdkCall.transportCreate, SdkCall.appGetAddressAndPubKey,
              SdkCall.transportClose])
      | Except.ok resp =>
          if jsTruthyString resp.errorMessage ∧
              resp.errorMessage ≠ some "No errors" then
            (Except.error (getLedgerError (jsOrString resp.errorMessage "")),
              { s with transport := some t, casperApp := some t },
              [SdkCall.transportCreate, SdkCall.appGetAddressAndPubKey,
                SdkCall.transportClose])
          else
            match resp.publicKey with
            | none =>
                (Except.error CONNECT_ERROR_MESSAGE,
                  { s with transport := some t, casperApp := some t },
                  [SdkCall.transportCreate, SdkCall.appGetAddressAndPubKey,
                    SdkCall.transportClose])
            | some bs =>
                (Except.ok (AlgoEnum.SECP256K1 ++ bytesToHex bs),
                  { s with transport := some t, casperApp := some t },
                  [SdkCall.transportCreate, SdkCall.appGetAddressAndPubKey,
                    SdkCall.transportClose])

/-- A signed deploy as produced by `DeployUtil.setSignature` followed
by `DeployUtil.deployToJson`: the original deploy JSON with the
signature and the signer's public key attached.  The deploy payload
itself is serialized by casper-js-sdk, modelled as an opaque string. -/
structure SignedDeploy where
  deployJson : String
  signature : List Nat
  signerHex : String
  deriving DecidableEq, Repr

/-- Embeds `DeployUtil.setSignature` composed with
`DeployUtil.deployToJson` from casper-js-sdk. -/
def setSignature (deployJson : String) (sig : List Nat)
    (signerHex : String) : SignedDeploy :=
  { deployJson := deployJson, signature := sig, signerHex := signerHex }

/-- Response of `casperApp.sign` on the Ledger device: the RS
signature buffer (absent on failure), an error message and a return
code. -/
structure LedgerSignResponse where
  signatureRS : Option (List Nat)
  errorMessage : String
  returnCode : Nat
  deriving DecidableEq, Repr

/-- Embeds `CasperLedgerConnector.sign`: `getProvider` runs `connect`
(outcome `createResult`); `deployFromJson(...).unwrap()` throws when
the deploy does not parse (`deployParses`); `casperApp.sign` is
awaited (outcome `signResult`); a missing `signatureRS` logs the
device's error message, closes the transport and throws; otherwise
`setSignature` is applied and `validateDeploy` (outcome `validateOk`)
decides between returning the signed deploy and throwing. -/
def CasperLedgerConnector.sign
    (s : CasperLedgerConnector) (createResult : Except String Nat)
    (deployParses : Bool) (deployJson : String)
    (signResult : Except String LedgerSignResponse)
    (validateOk : Bool) (signingPublicKeyHex : String) :
    Except String SignedDeploy × CasperLedgerConnector × List SdkCall :=
  match createResult with
  | Except.error e =>
      (Except.error (getLedgerError e), s, [SdkCall.transportCreate])
  | Except.ok t =>
      let s1 : CasperLedgerConnector :=
        { s with transport := some t, casperApp := some t }
      if !deployParses then
        (Except.error "Failed to parse deploy", s1, [SdkCall.transportCreate])
      else
        match signResult with
        | Except.error e =>
            (Except.error e, s1, [SdkCall.transportCreate, SdkCall.appSign])
        | Except.ok r =>
            match r.signatureRS with
            | none =>
                (Except.error (getLedgerError r.errorMessage), s1,
                  [SdkCall.transportCreate, SdkCall.appSign,
                    SdkCall.transportClose])
            | some sig =>
                if validateOk then
                  (Except.ok (setSignature deployJson sig signingPublicKeyHex),
                    s1,
                    [SdkCall.transportCreate, SdkCall.appSign,
                      SdkCall.transportClose])
                else
                  (Except.error "Error on sign deploy with ledger.", s1,
                    [SdkCall.transportCreate, SdkCall.appSign,
                      SdkCall.transportClose])

/-- Embeds `CasperLedgerConnector.signMessage`: `getProvider` runs
`connect`; `casperApp.signMessage` is awaited (outcome
`messageResult`, the `signatureRSV` buffer being absent on a falsy
response); a falsy response closes the transport and throws; otherwise
the transport is closed and the hex of the RSV buffer returned. -/
def CasperLedgerConnector.signMessage
    (s : CasperLedgerConnector) (createResult : Except String Nat)
    (messageResult : Except String (Option (List Nat))) :
    Except String String × CasperLedgerConnector × List SdkCall :=
  match createResult with
  | Except.error e =>
      (Except.error (getLedgerError e), s, [SdkCall.transportCreate])
  | Except.ok t =>
      let s1 : CasperLedgerConnector :=
        { s with transport := some t, casperApp := some t }
      match messageResult with
      | Except.error e =>
          (Except.error e, s1,
            [SdkCall.transportCreate, SdkCall.appSignMessage])
      | Except.ok none =>
          (Except.error "Error on sign message with ledger.", s1,
            [SdkCall.transportCreate, SdkCall.appSignMessage,
              SdkCall.transportClose])
      | Except.ok (some rsv) =>
          (Except.ok (bytesToHex rsv), s1,
            [SdkCall.transportCreate, SdkCall.appSignMessage,
              SdkCall.transportClose])

/-- Response of the extension provider's `signMessage`: a cancellation
flag and the hex signature. -/
structure WalletSignatureResponse where
  cancelled : Bool
  signatureHex : String
  deriving DecidableEq, Repr

/-- Response of the extension provider's `sign`: a cancellation flag
and the raw signature bytes. -/
structure WalletSignResponse where
  cancelled : Bool
  signature : List Nat
  deriving DecidableEq, Repr

/-- Embeds `CasperWalletConnector.connect`: `getProvider` queries
`options.getProvider` (present iff `providerOk`) and throws
`ConnectorNotFoundError` when absent; `getEventProvider` likewise
(`eventProviderOk`); four event listeners are added and
`provider.requestConnection` is awaited (outcome `reqResult`). -/
def CasperWalletConnector.connect (providerOk eventProviderOk : Bool)
    (reqResult : Except JsError Unit) :
    Except JsError Unit × List SdkCall :=
  if !providerOk then
    (Except.error JsError.connectorNotFound, [SdkCall.getProviderQuery])
  else if !eventProviderOk then
    (Except.error JsError.connectorNotFound,
      [SdkCall.getProviderQuery, SdkCall.getEventProviderQuery])
  else
    (reqResult,
      [SdkCall.getProviderQuery, SdkCall.getEventProviderQuery,
        SdkCall.addListener "casper-wallet:activeKeyChanged",
        SdkCall.addListener "casper-wallet:disconnected",
        SdkCall.addListener "casper-wallet:connected",
        SdkCall.addListener "casper-wallet:unlocked",
        SdkCall.requestConnection])

/-- Embeds `CasperWalletConnector.disconnect`: `getProvider`,
`getEventProvider`, removal of the four event listeners, then
`provider.disconnectFromSite` (outcome `discResult`). -/
def CasperWalletConnector.disconnect (providerOk eventProviderOk : Bool)
    (discResult : Except JsError Unit) :
    Except JsError Unit × List SdkCall :=
  if !providerOk then
    (Except.error JsError.connectorNotFound, [SdkCall.getProviderQuery])
  else if !eventProviderOk then
    (Except.error JsError.connectorNotFound,
      [SdkCall.getProviderQuery, SdkCall.getEventProviderQuery])
  else
    (discResult,
      [SdkCall.getProviderQuery, SdkCall.getEventProviderQuery,
        SdkCall.removeListener "casper-wallet:activeKeyChanged",
        SdkCall.removeListener "casper-wallet:disconnected",
        SdkCall.removeListener "casper-wallet:connected",
        SdkCall.removeListener "casper-wallet:unlocked",
        SdkCall.disconnectFromSite])

/-- Embeds `CasperWalletConnector.signMessage`: `getProvider`, then
`provider.signMessage` is awaited (outcome `resp`); a cancelled
response returns `undefined`, otherwise the `signatureHex` field is
returned. -/
def CasperWalletConnector.signMessage (providerOk : Bool)
    (resp : WalletSignatureResponse) :
    Except JsError (Option String) × List SdkCall :=
  if !providerOk then
    (Except.error JsError.connectorNotFound, [SdkCall.getProviderQuery])
  else if resp.cancelled then
    (Except.ok none, [SdkCall.getProviderQuery, SdkCall.providerSignMessage])
  else
    (Except.ok (some resp.signatureHex),
      [SdkCall.getProviderQuery, SdkCall.providerSignMessage])

/-- Embeds `CasperWalletConnector.sign`: `getProvider`, then
`DeployUtil.deployFromJson` (its `unwrap` only runs after the
cancellation check), then `provider.sign` is awaited (outcome `resp`);
a cancelled response returns `undefined`; otherwise `unwrap` throws
when the deploy does not parse, and else `setSignature` plus
`deployToJson` produce the signed deploy. -/
def CasperWalletConnector.sign (providerOk : Bool)
    (deployParses : Bool) (deployJson : String)
    (resp : WalletSignResponse) (signingPublicKeyHex : String) :
    Except JsError (Option SignedDeploy) × List SdkCall :=
  if !providerOk then
    (Except.error JsError.connectorNotFound, [SdkCall.getProviderQuery])
  else if resp.cancelled then
    (Except.ok none, [SdkCall.getProviderQuery, SdkCall.providerSignCall])
  else if !deployParses then
    (Except.error (JsError.jsError "Failed to parse deploy"),
      [SdkCall.getProviderQuery, SdkCall.providerSignCall])
  else
    (Except.ok (some (setSignature deployJson resp.signature
        signingPublicKeyHex)),
      [SdkCall.getProviderQuery, SdkCall.providerSignCall])

/-- Embeds `StatusEnum` from the core enums (client connection
status). -/
inductive StatusEnum where
  | CONNECTED
  | CONNECTING
  | DISCONNECTED
  | ERRORED
  deriving DecidableEq, Repr

/-- The connector as seen by the account actions: its `id` and, for the
Ledger connector, the `accountIndex` instance field that
`setAccountIndex` mutates. -/
structure ActionConnector where
  id : String
  accountIndex : Option String
  deriving DecidableEq, Repr

/-- The `data` record of the client state: the active public key and
the Ledger account index. -/
structure ClientData where
  activeKey : Option String
  ledgerAccountIndex : Option String
  deriving DecidableEq, Repr

/-- Embeds `StateParams`: the fields `setState` updates
functionally. -/
structure StateParams where
  status : StatusEnum
  data : ClientData
  deriving DecidableEq, Repr

/-- The single global client object returned by `getClient`: at most
one connector reference plus the state record. -/
structure Client where
  connector : Option ActionConnector
  state : StateParams
  deriving DecidableEq, Repr

/-- Result of running an account action: its JS outcome (throw or
return), the client afterwards, and the errors passed to
`console.error`. -/
structure ActionResult (α : Type) where
  result : Except JsError α
  client : Client
  logged : List JsError
  deriving Repr

/-- Embeds the `disconnect` action (actions/account/disconnect.ts):
awaits `client.connector?.disconnect()` — skipped (resolving
undefined) when there is no connector, otherwise with outcome
`connResult` — then `setState` spreads the old state, sets `status` to
`DISCONNECTED` and `data.activeKey` to `undefined`.  The catch block
logs the error and returns normally: the error is not rethrown. -/
def disconnect (connResult : Except JsError Unit) (c : Client) :
    ActionResult Unit :=
  match (match c.connector with
         | none => Except.ok ()
         | some _ => connResult) with
  | Except.ok () =>
      { result := Except.ok (),
        client := { c with state :=
          { c.state with
              status := StatusEnum.DISCONNECTED,
              data := { c.state.data with activeKey := none } } },
        logged := [] }
  | Except.error e =>
      { result := Except.ok (), client := c, logged := [e] }

/-- Embeds the `setLedgerAccountIndex` action
(actions/account/setLedgerAccountIndex.ts): a present connector whose
`id` is not the literal ledger id throws `ConnectorNotLedgerError`;
`connector.getPublicKey(index)` is awaited (outcome `gpk`) — when the
connector is absent this is a property access on `undefined`, a
`TypeError`; on success `setState` spreads the old state, setting
`data.ledgerAccountIndex` and `data.activeKey`, and
`connector.setAccountIndex(index)` mutates the connector instance.
Every caught error is logged and rethrown. -/
def setLedgerAccountIndex (gpk : Except JsError String) (index : String)
    (c : Client) : ActionResult Unit :=
  match c.connector with
  | some conn =>
      if conn.id ≠ "ledger" then
        { result := Except.error JsError.connectorNotLedger, client := c,
          logged := [JsError.connectorNotLedger] }
      else
        match gpk with
        | Except.ok pk =>
            { result := Except.ok (),
              client :=
                { connector := some { conn with accountIndex := some index },
                  state := { c.state with data :=
                    { activeKey := some pk,
                      ledgerAccountIndex := some index } } },
              logged := [] }
        | Except.error e =>
            { result := Except.error e, client := c, logged := [e] }
  | none =>
      { result := Except.error (JsError.typeError
          "Cannot read properties of undefined"),
        client := c,
        logged := [JsError.typeError "Cannot read properties of undefined"] }

/-- Embeds the `getLedgerPublicKey` action (hooks side): a present
connector whose `id` is not the literal ledger id throws
`ConnectorNotLedgerError`; otherwise
`(connector as CasperLedgerConnector)?.getPublicKey(index)` is awaited
— the optional chaining resolves to `undefined` when the connector is
absent, so the action returns `undefined` without error; errors are
logged and rethrown.  The action does not call `setState`. -/
def getLedgerPublicKey (gpk : Except JsError String) (c : Client) :
    Except JsError (Option String) × List JsError :=
  match c.connector with
  | some conn =>
      if conn.id ≠ "ledger" then
        (Except.error JsError.connectorNotLedger,
          [JsError.connectorNotLedger])
      else
        match gpk with
        | Except.ok pk => (Except.ok (some pk), [])
        | Except.error e => (Except.error e, [e])
  | none => (Except.ok none, [])

/-- Parameters of the sign operation exposed by `useSign`: the deploy
(an opaque JSON value, absent when not provided) and the two key hex
strings (absent or possibly empty). -/
structure UseSignParams where
  deploy : Option String
  signingPublicKey : Option String
  targetPublicKeyHex : Option String
  deriving DecidableEq, Repr

/-- Modelled from the spec: the parameter validation of the sign
operation exposed by the `useSign` hook, whose implementation is not
under src/ (only its test file is).  Per the spec, validation rejects
empty deploy/key fields; the messages and the order (deploy first,
then `signingPublicKey`, then `targetPublicKeyHex`) follow the test
expectations in useSign.test. -/
def validateSignParams (p : UseSignParams) :
    Except String UseSignParams :=
  if p.deploy.isNone then
    Except.error "Deploy must be a non-empty"
  else if !jsTruthyString p.signingPublicKey then
    Except.error "signingPublicKey must be a non-empty string"
  else if !jsTruthyString p.targetPublicKeyHex then
    Except.error "targetPublicKeyHex must be a non-empty string"
  else
    Except.ok p

/-- The result of `jsOrString` is never empty when its fallback is not
empty. -/
theorem jsOrString_ne_empty (a : Option String) (b : String) (hb : b ≠ "") :
    jsOrString a b ≠ "" := by
  cases a with
  | none => simpa [jsOrString] using hb
  | some v =>
      by_cases hv : v = "" <;> simp [jsOrString, hv, hb]

/-- C9: for every non-empty index `i`, `setAccountIndex i` followed by
`getAccountIndex` returns `i`; on a fresh connector, or after
`setAccountIndex ""`, `getAccountIndex` returns the string 0; and
`getAccountIndex` never returns `undefined` or the empty string. -/
theorem c9_accountIndex_roundtrip
    (s s2 s3 : CasperLedgerConnector) (i : String) (h : i ≠ "") :
    (s.setAccountIndex i).getAccountIndex = some i ∧
    CasperLedgerConnector.init.getAccountIndex = some "0" ∧
    (s2.setAccountIndex "").getAccountIndex = some "0" ∧
    s3.getAccountIndex ≠ none ∧
    s3.getAccountIndex ≠ some "" := by
  refine ⟨?_, by decide, ?_, ?_, ?_⟩
  · simp [CasperLedgerConnector.setAccountIndex,
      CasperLedgerConnector.getAccountIndex, jsOrString, h]
  · simp [CasperLedgerConnector.setAccountIndex,
      CasperLedgerConnector.getAccountIndex, jsOrString]
  · simp [CasperLedgerConnector.getAccountIndex]
  · simpa [CasperLedgerConnector.getAccountIndex] using
      jsOrString_ne_empty s3.accountIndex "0" (by decide)

/-- Witness for C9 at the index 5 on fresh connectors. -/
theorem c9_accountIndex_roundtrip_witness :
    ("5" : String) ≠ "" ∧
    ((CasperLedgerConnector.init.setAccountIndex "5").getAccountIndex
        = some "5" ∧
      CasperLedgerConnector.init.getAccountIndex = some "0" ∧
      (CasperLedgerConnector.init.setAccountIndex "").getAccountIndex
        = some "0" ∧
      CasperLedgerConnector.init.getAccountIndex ≠ none ∧
      CasperLedgerConnector.init.getAccountIndex ≠ some "") :=
  ⟨by decide,
    c9_accountIndex_roundtrip CasperLedgerConnector.init
      CasperLedgerConnector.init CasperLedgerConnector.init "5" (by decide)⟩

/-- Counterexample to C6 as stated: `setAccountIndex` stores the index
on the connector instance itself, and that stored state survives
between calls — a later `getAccountIndex` on the fresh instance gives
the string 0, but on the updated instance gives the stored 5. -/
theorem c6_counterexample_instance_state :
    (CasperLedgerConnector.init.setAccountIndex "5").accountIndex
      = some "5" ∧
    CasperLedgerConnector.init.accountIndex = none ∧
    (CasperLedgerConnector.init.setAccountIndex "5").getAccountIndex
      = some "5" ∧
    CasperLedgerConnector.init.getAccountIndex = some "0" := by
  refine ⟨rfl, rfl, by decide, by decide⟩

/-- C6 amended: connector operations do store state on the connector
instance that survives between calls: `setAccountIndex` writes
`accountIndex` (read back by a later `getAccountIndex`), and `connect`
writes `transport` and `casperApp`. -/
theorem c6_connector_instance_state
    (s : CasperLedgerConnector) (i : String) (t : Nat) (h : i ≠ "") :
    (s.setAccountIndex i).accountIndex = some i ∧
    (s.setAccountIndex i).getAccountIndex = some i ∧
    (s.connect (Except.ok t)).2.1.transport = some t ∧
    (s.connect (Except.ok t)).2.1.casperApp = some t := by
  refine ⟨rfl, ?_, ?_, ?_⟩
  · simp [CasperLedgerConnector.setAccountIndex,
      CasperLedgerConnector.getAccountIndex, jsOrString, h]
  · simp [CasperLedgerConnector.connect]
  · simp [CasperLedgerConnector.connect]

/-- Witness for the amended C6 on a fresh connector, index 7,
transport handle 3. -/
theorem c6_connector_instance_state_witness :
    ("7" : String) ≠ "" ∧
    ((CasperLedgerConnector.init.setAccountIndex "7").accountIndex
        = some "7" ∧
      (CasperLedgerConnector.init.setAccountIndex "7").getAccountIndex
        = some "7" ∧
      (CasperLedgerConnector.init.connect (Except.ok 3)).2.1.transport
        = some 3 ∧
      (CasperLedgerConnector.init.connect (Except.ok 3)).2.1.casperApp
        = some 3) :=
  ⟨by decide,
    c6_connector_instance_state CasperLedgerConnector.init "7" 3 (by decide)⟩

/-- Counterexample to C10 as stated: when the device responds with an
empty public-key buffer and no error, `getPublicKey` does not throw
`CONNECT_ERROR_MESSAGE` — the JS falsiness check does not fire on an
empty buffer object — and the bare secp256k1 prefix is returned. -/
theorem c10_counterexample_empty_buffer :
    (CasperLedgerConnector.init.getPublicKey (Except.ok 0)
        (Except.ok { errorMessage := some "No errors", publicKey := some [] })).1
      = Except.ok AlgoEnum.SECP256K1 ∧
    (CasperLedgerConnector.init.getPublicKey (Except.ok 0)
        (Except.ok { errorMessage := some "No errors", publicKey := some [] })).1
      ≠ Except.error CONNECT_ERROR_MESSAGE := by
  constructor
  · simp [CasperLedgerConnector.getPublicKey, jsTruthyString,
      AlgoEnum.SECP256K1, bytesToHex, String.join]
  · simp [CasperLedgerConnector.getPublicKey, jsTruthyString]

/-- C10 amended: every successful `getPublicKey` call returns the
secp256k1 algorithm prefix concatenated with the hex encoding of the
device's public-key bytes; and when the device omits the public key
(`undefined`), the call throws `CONNECT_ERROR_MESSAGE`.  An empty
(zero-length) buffer is not caught by the falsiness check and yields
the bare prefix. -/
theorem c10_getPublicKey_prefix_hex
    (s1 s2 : CasperLedgerConnector) (t1 t2 : Nat)
    (resp1 resp2 : AddressPubKeyResponse) (bs : List Nat)
    (hm1 : resp1.errorMessage = some "No errors" ∨ resp1.errorMessage = none)
    (hm2 : resp2.errorMessage = some "No errors" ∨ resp2.errorMessage = none)
    (h1 : resp1.publicKey = none) (h2 : resp2.publicKey = some bs) :
    (s1.getPublicKey (Except.ok t1) (Except.ok resp1)).1
      = Except.error CONNECT_ERROR_MESSAGE ∧
    (s2.getPublicKey (Except.ok t2) (Except.ok resp2)).1
      = Except.ok (AlgoEnum.SECP256K1 ++ bytesToHex bs) := by
  constructor
  · rcases hm1 with hm | hm <;>
      simp [CasperLedgerConnector.getPublicKey, jsTruthyString, hm, h1]
  · rcases hm2 with hm | hm <;>
      simp [CasperLedgerConnector.getPublicKey, jsTruthyString, hm, h2]

/-- Witness for the amended C10: a missing key throws the connect
error, and the two-byte key 01ff is returned with the 02 prefix. -/
theorem c10_getPublicKey_prefix_hex_witness :
    (({ errorMessage := some "No errors", publicKey := none }
        : AddressPubKeyResponse).errorMessage = some "No errors" ∨
      ({ errorMessage := some "No errors", publicKey := none }
        : AddressPubKeyResponse).errorMessage = none) ∧
    (({ errorMessage := none, publicKey := some [1, 255] }
        : AddressPubKeyResponse).errorMessage = some "No errors" ∨
      ({ errorMessage := none, publicKey := some [1, 255] }
        : AddressPubKeyResponse).errorMessage = none) ∧
    ({ errorMessage := some "No errors", publicKey := none }
        : AddressPubKeyResponse).publicKey = none ∧
    ({ errorMessage := none, publicKey := some [1, 255] }
        : AddressPubKeyResponse).publicKey = some [1, 255] ∧
    ((CasperLedgerConnector.init.getPublicKey (Except.ok 0)
        (Except.ok { errorMessage := some "No errors", publicKey := none })).1
      = Except.error CONNECT_ERROR_MESSAGE ∧
     (CasperLedgerConnector.init.getPublicKey (Except.ok 0)
        (Except.ok { errorMessage := none, publicKey := some [1, 255] })).1
      = Except.ok (AlgoEnum.SECP256K1 ++ bytesToHex [1, 255])) :=
  ⟨Or.inl rfl, Or.inr rfl, rfl, rfl,
    c10_getPublicKey_prefix_hex CasperLedgerConnector.init
      CasperLedgerConnector.init 0 0
      { errorMessage := some "No errors", publicKey := none }
      { errorMessage := none, publicKey := some [1, 255] }
      [1, 255] (Or.inl rfl) (Or.inr rfl) rfl rfl⟩

/-- C3: when the provider reports a cancelled response, the wallet
connector's `signMessage` and `sign` both resolve to `undefined`: no
error is thrown and no signature or signed deploy is produced. -/
theorem c3_cancelled_returns_undefined
    (resp : WalletSignatureResponse) (sresp : WalletSignResponse)
    (deployParses : Bool) (deployJson spk : String)
    (h1 : resp.cancelled = true) (h2 : sresp.cancelled = true) :
    (CasperWalletConnector.signMessage true resp).1 = Except.ok none ∧
    (CasperWalletConnector.sign true deployParses deployJson sresp spk).1
      = Except.ok none := by
  constructor
  · simp [CasperWalletConnector.signMessage, h1]
  · simp [CasperWalletConnector.sign, h2]

/-- Witness for C3 at concrete cancelled responses. -/
theorem c3_cancelled_returns_undefined_witness :
    ({ cancelled := true, signatureHex := "ab" }
        : WalletSignatureResponse).cancelled = true ∧
    ({ cancelled := true, signature := [1] }
        : WalletSignResponse).cancelled = true ∧
    ((CasperWalletConnector.signMessage true
        { cancelled := true, signatureHex := "ab" }).1 = Except.ok none ∧
     (CasperWalletConnector.sign true true "deploy"
        { cancelled := true, signature := [1] } "02aa").1 = Except.ok none) :=
  ⟨rfl, rfl,
    c3_cancelled_returns_undefined
      { cancelled := true, signatureHex := "ab" }
      { cancelled := true, signature := [1] }
      true "deploy" "02aa" rfl rfl⟩

/-- C2: the sign operation's validation rejects empty fields with the
documented messages: an absent deploy gives the deploy message; a
present deploy with a falsy `signingPublicKey` gives the signing-key
message; present deploy and signing key with a falsy
`targetPublicKeyHex` give the target-key message. -/
theorem c2_useSign_validation
    (p1 p2 p3 : UseSignParams)
    (h1 : p1.deploy = none)
    (h2a : p2.deploy.isNone = false)
    (h2b : jsTruthyString p2.signingPublicKey = false)
    (h3a : p3.deploy.isNone = false)
    (h3b : jsTruthyString p3.signingPublicKey = true)
    (h3c : jsTruthyString p3.targetPublicKeyHex = false) :
    validateSignParams p1 = Except.error "Deploy must be a non-empty" ∧
    validateSignParams p2
      = Except.error "signingPublicKey must be a non-empty string" ∧
    validateSignParams p3
      = Except.error "targetPublicKeyHex must be a non-empty string" := by
  refine ⟨?_, ?_, ?_⟩
  · simp [validateSignParams, h1]
  · simp [validateSignParams, h2a, h2b]
  · simp [validateSignParams, h3a, h3b, h3c]

/-- Sample sign parameters with the deploy missing. -/
def signParamsNoDeploy : UseSignParams :=
  { deploy := none, signingPublicKey := some "a",
    targetPublicKeyHex := some "b" }

/-- Sample sign parameters with an empty signing key. -/
def signParamsNoSigningKey : UseSignParams :=
  { deploy := some "d", signingPublicKey := some "",
    targetPublicKeyHex := some "b" }

/-- Sample sign parameters with the target key missing. -/
def signParamsNoTargetKey : UseSignParams :=
  { deploy := some "d", signingPublicKey := some "a",
    targetPublicKeyHex := none }

/-- Witness for C2 at three concrete parameter records. -/
theorem c2_useSign_validation_witness :
    signParamsNoDeploy.deploy = none ∧
    signParamsNoSigningKey.deploy.isNone = false ∧
    jsTruthyString signParamsNoSigningKey.signingPublicKey = false ∧
    signParamsNoTargetKey.deploy.isNone = false ∧
    jsTruthyString signParamsNoTargetKey.signingPublicKey = true ∧
    jsTruthyString signParamsNoTargetKey.targetPublicKeyHex = false ∧
    (validateSignParams signParamsNoDeploy
      = Except.error "Deploy must be a non-empty" ∧
     validateSignParams signParamsNoSigningKey
      = Except.error "signingPublicKey must be a non-empty string" ∧
     validateSignParams signParamsNoTargetKey
      = Except.error "targetPublicKeyHex must be a non-empty string") :=
  ⟨rfl, rfl, by decide, rfl, by decide, rfl,
    c2_useSign_validation signParamsNoDeploy signParamsNoSigningKey
      signParamsNoTargetKey rfl rfl (by decide) rfl (by decide) rfl⟩

/-- A sample connected client whose connector is the Ledger one. -/
def clientLedgerSample : Client :=
  { connector := some { id := "ledger", accountIndex := none },
    state := { status := StatusEnum.CONNECTED,
               data := { activeKey := some "02aa",
                         ledgerAccountIndex := some "0" } } }

/-- A sample connected client whose connector is the extension
wallet. -/
def clientWalletSample : Client :=
  { connector := some { id := "casperWallet", accountIndex := none },
    state := { status := StatusEnum.CONNECTED,
               data := { activeKey := some "02aa",
                         ledgerAccountIndex := none } } }

/-- A sample client with no connector. -/
def clientEmptySample : Client :=
  { connector := none,
    state := { status := StatusEnum.DISCONNECTED,
               data := { activeKey := none,
                         ledgerAccountIndex := none } } }

/-- Counterexample to C1 as stated: when the connector's disconnect
call throws, the `disconnect` action logs the error but resolves
normally — the error is not rethrown to the caller. -/
theorem c1_counterexample_disconnect_swallows :
    (disconnect (Except.error (JsError.jsError "boom"))
        clientLedgerSample).result = Except.ok () ∧
    (disconnect (Except.error (JsError.jsError "boom"))
        clientLedgerSample).result
      ≠ Except.error (JsError.jsError "boom") ∧
    (disconnect (Except.error (JsError.jsError "boom"))
        clientLedgerSample).logged = [JsError.jsError "boom"] := by
  refine ⟨rfl, by simp [disconnect, clientLedgerSample], rfl⟩

/-- C1 amended: `setLedgerAccountIndex` and `getLedgerPublicKey` log
every error thrown by the underlying connector call and rethrow it,
but `disconnect` logs the error and swallows it, resolving
normally. -/
theorem c1_log_and_rethrow
    (conn : ActionConnector) (c : Client) (e : JsError) (index : String)
    (hc : c.connector = some conn) (hid : conn.id = "ledger") :
    (disconnect (Except.error e) c).result = Except.ok () ∧
    (disconnect (Except.error e) c).logged = [e] ∧
    (setLedgerAccountIndex (Except.error e) index c).result
      = Except.error e ∧
    (setLedgerAccountIndex (Except.error e) index c).logged = [e] ∧
    (getLedgerPublicKey (Except.error e) c).1 = Except.error e ∧
    (getLedgerPublicKey (Except.error e) c).2 = [e] := by
  refine ⟨?_, ?_, ?_, ?_, ?_, ?_⟩ <;>
    simp [disconnect, setLedgerAccountIndex, getLedgerPublicKey, hc, hid]

/-- Witness for the amended C1 on the Ledger client sample. -/
theorem c1_log_and_rethrow_witness :
    clientLedgerSample.connector
      = some { id := "ledger", accountIndex := none } ∧
    ({ id := "ledger", accountIndex := none } : ActionConnector).id
      = "ledger" ∧
    ((disconnect (Except.error (JsError.jsError "usb")) clientLedgerSample).result
      = Except.ok () ∧
     (disconnect (Except.error (JsError.jsError "usb")) clientLedgerSample).logged
      = [JsError.jsError "usb"] ∧
     (setLedgerAccountIndex (Except.error (JsError.jsError "usb")) "1"
        clientLedgerSample).result = Except.error (JsError.jsError "usb") ∧
     (setLedgerAccountIndex (Except.error (JsError.jsError "usb")) "1"
        clientLedgerSample).logged = [JsError.jsError "usb"] ∧
     (getLedgerPublicKey (Except.error (JsError.jsError "usb"))
        clientLedgerSample).1 = Except.error (JsError.jsError "usb") ∧
     (getLedgerPublicKey (Except.error (JsError.jsError "usb"))
        clientLedgerSample).2 = [JsError.jsError "usb"]) :=
  ⟨rfl, rfl,
    c1_log_and_rethrow { id := "ledger", accountIndex := none }
      clientLedgerSample (JsError.jsError "usb") "1" rfl rfl⟩

/-- C5: whenever the connector's disconnect call succeeds (or there is
no connector, so the optional call is skipped), the `disconnect`
action sets the status to `DISCONNECTED`, clears `data.activeKey`, and
leaves the connector reference and the remaining data fields
(`ledgerAccountIndex`) unchanged. -/
theorem c5_disconnect_frame
    (connResult : Except JsError Unit) (c : Client)
    (h : c.connector = none ∨ connResult = Except.ok ()) :
    (disconnect connResult c).client.state.status
      = StatusEnum.DISCONNECTED ∧
    (disconnect connResult c).client.state.data.activeKey = none ∧
    (disconnect connResult c).client.state.data.ledgerAccountIndex
      = c.state.data.ledgerAccountIndex ∧
    (disconnect connResult c).client.connector = c.connector ∧
    (disconnect connResult c).result = Except.ok () := by
  rcases h with h | h
  · simp [disconnect, h]
  · cases hc : c.connector <;> simp [disconnect, hc, h]

/-- Witness for C5: a successful disconnect on the wallet client
sample. -/
theorem c5_disconnect_frame_witness :
    (clientWalletSample.connector = none ∨
      (Except.ok () : Except JsError Unit) = Except.ok ()) ∧
    ((disconnect (Except.ok ()) clientWalletSample).client.state.status
      = StatusEnum.DISCONNECTED ∧
     (disconnect (Except.ok ()) clientWalletSample).client.state.data.activeKey
      = none ∧
     (disconnect (Except.ok ()) clientWalletSample).client.state.data.ledgerAccountIndex
      = clientWalletSample.state.data.ledgerAccountIndex ∧
     (disconnect (Except.ok ()) clientWalletSample).client.connector
      = clientWalletSample.connector ∧
     (disconnect (Except.ok ()) clientWalletSample).result = Except.ok ()) :=
  ⟨Or.inr rfl, c5_disconnect_frame (Except.ok ()) clientWalletSample (Or.inr rfl)⟩

/-- C4: the client state is one record with a single optional
connector slot; `disconnect` leaves the connector reference untouched
and `setLedgerAccountIndex` keeps the same single connector (same
identity, same presence), so every action preserves the at-most-one
connector shape. -/
theorem c4_single_connector_preserved
    (connResult : Except JsError Unit) (gpk : Except JsError String)
    (index : String) (c : Client) :
    (disconnect connResult c).client.connector = c.connector ∧
    (setLedgerAccountIndex gpk index c).client.connector.map ActionConnector.id
      = c.connector.map ActionConnector.id ∧
    (setLedgerAccountIndex gpk index c).client.connector.isSome
      = c.connector.isSome ∧
    (disconnect connResult c).client.connector.toList.length ≤ 1 ∧
    (setLedgerAccountIndex gpk index c).client.connector.toList.length
      ≤ 1 := by
  have hd : (disconnect connResult c).client.connector = c.connector := by
    cases hc : c.connector <;> cases connResult <;> simp [disconnect, hc]
  have hs : (setLedgerAccountIndex gpk index c).client.connector.map
        ActionConnector.id = c.connector.map ActionConnector.id := by
    cases hc : c.connector with
    | none => simp [setLedgerAccountIndex, hc]
    | some conn =>
        by_cases hid : conn.id = "ledger" <;> cases gpk <;>
          simp [setLedgerAccountIndex, hc, hid]
  refine ⟨hd, hs, ?_, ?_, ?_⟩
  · have := congrArg Option.isSome hs
    simpa using this
  · rw [hd]; cases c.connector <;> simp
  · have := congrArg Option.isSome hs
    cases hopt : (setLedgerAccountIndex gpk index c).client.connector <;>
      cases hc : c.connector <;> simp_all

/-- A non-ledger connector is present on the client: the condition
under which the ledger actions throw `ConnectorNotLedgerError`. -/
def hasNonLedgerConnector (c : Client) : Bool :=
  match c.connector with
  | some conn => conn.id != "ledger"
  | none => false

/-- C8: the ledger actions throw `ConnectorNotLedgerError` exactly
when a connector is present with a non-ledger id; with no connector at
all, `getLedgerPublicKey` resolves to `undefined` through the optional
chaining, while `setLedgerAccountIndex` fails with a `TypeError`
rather than `ConnectorNotLedgerError`. -/
theorem c8_not_ledger_error_iff
    (gpk : Except JsError String) (index : String) (c c2 : Client)
    (h : gpk ≠ Except.error JsError.connectorNotLedger)
    (h2 : c2.connector = none) :
    ((getLedgerPublicKey gpk c).1 = Except.error JsError.connectorNotLedger
      ↔ hasNonLedgerConnector c = true) ∧
    ((setLedgerAccountIndex gpk index c).result
        = Except.error JsError.connectorNotLedger
      ↔ hasNonLedgerConnector c = true) ∧
    (getLedgerPublicKey gpk c2).1 = Except.ok none ∧
    (setLedgerAccountIndex gpk index c2).result
      = Except.error (JsError.typeError "Cannot read properties of undefined") ∧
    JsError.typeError "Cannot read properties of undefined"
      ≠ JsError.connectorNotLedger := by
  refine ⟨?_, ?_, ?_, ?_, by decide⟩
  · cases hc : c.connector with
    | none => simp [getLedgerPublicKey, hasNonLedgerConnector, hc]
    | some conn =>
        by_cases hid : conn.id = "ledger"
        · cases gpk with
          | ok pk => simp [getLedgerPublicKey, hasNonLedgerConnector, hc, hid]
          | error e =>
              simp only [getLedgerPublicKey, hasNonLedgerConnector, hc, hid]
              simp only [ne_eq, not_true_eq_false, if_false, reduceIte]
              constructor
              · intro he
                exact absurd (by rw [Except.error.injEq] at he; rw [he]) h
              · intro hb
                simp [bne_iff_ne, hid] at hb
        · simp [getLedgerPublicKey, hasNonLedgerConnector, hc, hid,
            bne_iff_ne]
  · cases hc : c.connector with
    | none =>
        simp [setLedgerAccountIndex, hasNonLedgerConnector, hc]
    | some conn =>
        by_cases hid : conn.id = "ledger"
        · cases gpk with
          | ok pk =>
              simp [setLedgerAccountIndex, hasNonLedgerConnector, hc, hid]
          | error e =>
              simp only [setLedgerAccountIndex, hasNonLedgerConnector, hc, hid]
              simp only [ne_eq, not_true_eq_false, if_false, reduceIte]
              constructor
              · intro he
                exact absurd (by rw [Except.error.injEq] at he; rw [he]) h
              · intro hb
                simp [bne_iff_ne, hid] at hb
        · simp [setLedgerAccountIndex, hasNonLedgerConnector, hc, hid,
            bne_iff_ne]
  · simp [getLedgerPublicKey, h2]
  · simp [setLedgerAccountIndex, h2]

/-- Witness for C8 on the wallet-connector client and the empty
client, with a successfully resolving public-key call. -/
theorem c8_not_ledger_error_iff_witness :
    (Except.ok "02aa" : Except JsError String)
      ≠ Except.error JsError.connectorNotLedger ∧
    clientEmptySample.connector = none ∧
    (((getLedgerPublicKey (Except.ok "02aa") clientWalletSample).1
        = Except.error JsError.connectorNotLedger
      ↔ hasNonLedgerConnector clientWalletSample = true) ∧
     ((setLedgerAccountIndex (Except.ok "02aa") "0"
          clientWalletSample).result
        = Except.error JsError.connectorNotLedger
      ↔ hasNonLedgerConnector clientWalletSample = true) ∧
     (getLedgerPublicKey (Except.ok "02aa") clientEmptySample).1
      = Except.ok none ∧
     (setLedgerAccountIndex (Except.ok "02aa") "0"
        clientEmptySample).result
      = Except.error (JsError.typeError "Cannot read properties of undefined") ∧
     JsError.typeError "Cannot read properties of undefined"
      ≠ JsError.connectorNotLedger) :=
  ⟨by simp, rfl,
    c8_not_ledger_error_iff (Except.ok "02aa") "0" clientWalletSample
      clientEmptySample (by simp) rfl⟩

/-- The SDK-call trace of `CasperWalletConnector.connect` never
repeats a call. -/
theorem walletConnect_trace_nodup (providerOk eventProviderOk : Bool)
    (reqResult : Except JsError Unit) :
    (CasperWalletConnector.connect providerOk eventProviderOk
      reqResult).2.Nodup := by
  cases providerOk <;> cases eventProviderOk <;>
    simp [CasperWalletConnector.connect]

/-- The SDK-call trace of `CasperWalletConnector.disconnect` never
repeats a call. -/
theorem walletDisconnect_trace_nodup (providerOk eventProviderOk : Bool)
    (discResult : Except JsError Unit) :
    (CasperWalletConnector.disconnect providerOk eventProviderOk
      discResult).2.Nodup := by
  cases providerOk <;> cases eventProviderOk <;>
    simp [CasperWalletConnector.disconnect]

/-- The SDK-call trace of `CasperWalletConnector.signMessage` never
repeats a call. -/
theorem walletSignMessage_trace_nodup (providerOk : Bool)
    (resp : WalletSignatureResponse) :
    (CasperWalletConnector.signMessage providerOk resp).2.Nodup := by
  cases providerOk <;> cases hr : resp.cancelled <;>
    simp [CasperWalletConnector.signMessage, hr]

/-- The SDK-call trace of `CasperWalletConnector.sign` never repeats a
call. -/
theorem walletSign_trace_nodup (providerOk deployParses : Bool)
    (deployJson spk : String) (resp : WalletSignResponse) :
    (CasperWalletConnector.sign providerOk deployParses deployJson resp
      spk).2.Nodup := by
  cases providerOk <;> cases deployParses <;> cases hr : resp.cancelled <;>
    simp [CasperWalletConnector.sign, hr]

/-- The SDK-call trace of `CasperLedgerConnector.connect` never
repeats a call. -/
theorem ledgerConnect_trace_nodup (s : CasperLedgerConnector)
    (createResult : Except String Nat) :
    (s.connect createResult).2.2.Nodup := by
  cases createResult <;> simp [CasperLedgerConnector.connect]

/-- The SDK-call trace of `CasperLedgerConnector.sign` never repeats a
call. -/
theorem ledgerSign_trace_nodup (s : CasperLedgerConnector)
    (createResult : Except String Nat) (deployParses : Bool)
    (deployJson : String) (signResult : Except String LedgerSignResponse)
    (validateOk : Bool) (spk : String) :
    (s.sign createResult deployParses deployJson signResult validateOk
      spk).2.2.Nodup := by
  cases createResult with
  | error e => simp [CasperLedgerConnector.sign]
  | ok t =>
      cases deployParses <;> cases signResult with
      | error e => simp [CasperLedgerConnector.sign]
      | ok r =>
          cases hr : r.signatureRS <;> cases validateOk <;>
            simp [CasperLedgerConnector.sign, hr]

/-- The SDK-call trace of `CasperLedgerConnector.signMessage` never
repeats a call. -/
theorem ledgerSignMessage_trace_nodup (s : CasperLedgerConnector)
    (createResult : Except String Nat)
    (messageResult : Except String (Option (List Nat))) :
    (s.signMessage createResult messageResult).2.2.Nodup := by
  cases createResult with
  | error e => simp [CasperLedgerConnector.signMessage]
  | ok t =>
      cases messageResult with
      | error e => simp [CasperLedgerConnector.signMessage]
      | ok o => cases o <;> simp [CasperLedgerConnector.signMessage]

/-- C7: every connector operation issues a fixed sequence of SDK calls
in which no call is repeated — in particular `requestConnection`,
`provider.sign`, `casperApp.sign` and `TransportWebUSB.create` are
each issued at most once per invocation, and a failed call is never
re-attempted. -/
theorem c7_no_retries
    (providerOk eventProviderOk deployParses validateOk : Bool)
    (reqResult discResult : Except JsError Unit)
    (wresp : WalletSignatureResponse) (wsresp : WalletSignResponse)
    (deployJson spk : String) (s : CasperLedgerConnector)
    (createResult : Except String Nat)
    (signResult : Except String LedgerSignResponse)
    (messageResult : Except String (Option (List Nat))) :
    (CasperWalletConnector.connect providerOk eventProviderOk
      reqResult).2.Nodup ∧
    (CasperWalletConnector.disconnect providerOk eventProviderOk
      discResult).2.Nodup ∧
    (CasperWalletConnector.signMessage providerOk wresp).2.Nodup ∧
    (CasperWalletConnector.sign providerOk deployParses deployJson wsresp
      spk).2.Nodup ∧
    (s.connect createResult).2.2.Nodup ∧
    (s.sign createResult deployParses deployJson signResult validateOk
      spk).2.2.Nodup ∧
    (s.signMessage createResult messageResult).2.2.Nodup :=
  ⟨walletConnect_trace_nodup providerOk eventProviderOk reqResult,
    walletDisconnect_trace_nodup providerOk eventProviderOk discResult,
    walletSignMessage_trace_nodup providerOk wresp,
    walletSign_trace_nodup providerOk deployParses deployJson spk wsresp,
    ledgerConnect_trace_nodup s createResult,
    ledgerSign_trace_nodup s createResult deployParses deployJson
      signResult validateOk spk,
    ledgerSignMessage_trace_nodup s createResult messageResult⟩

end UseDApp
